import Mathlib

/-!
Verification of the pachinko physics/collision/scoring core.

Shallow embedding of `src/physics.js` (class `Physics`, class `PhysicsBody`)
and of the slot layout / scoring logic of `PachinkoMachine`
(`createSlots`, `update`).  JS numbers are modelled as real numbers; the
3-element arrays of the source become `Vec3` records with component 0 = x,
1 = y, 2 = z.  `Math.random()` is modelled as an explicit parameter
(one draw per body per step, as in the source).  The `onCollision`
callback is modelled by a `Bool` in the result of each resolver that is `true`
exactly when the source would invoke the callback.
-/

namespace Pachinko

/-- A 3D vector (JS arrays `[x, y, z]`). -/
structure Vec3 where
  x : ℝ
  y : ℝ
  z : ℝ

/-- The moving ball: the fields of `PhysicsBody` that the integrator and
the resolvers read or write (`position`, `velocity`, `radius`, `isStatic`). -/
structure Body where
  position : Vec3
  velocity : Vec3
  radius : ℝ
  isStatic : Bool

/-- A static sphere obstacle (`PhysicsBody` with type tag sphere). -/
structure SphereObstacle where
  position : Vec3
  radius : ℝ

/-- A static vertical cylinder obstacle (type tag cylinder): a pin. -/
structure CylinderObstacle where
  position : Vec3
  radius : ℝ
  height : ℝ

/-- A static axis-aligned box obstacle (type tag box): walls, dividers, floor. -/
structure BoxObstacle where
  min : Vec3
  max : Vec3

/-- The static bodies a ball can collide with, dispatched on the shape tag of the
string `type` tag in `Physics.checkCollision`. -/
inductive StaticBody where
  | sphere : SphereObstacle → StaticBody
  | box : BoxObstacle → StaticBody
  | cylinder : CylinderObstacle → StaticBody

/-- The `Physics` world constants set in the constructor of `Physics`. -/
structure Physics where
  gravity : ℝ
  restitution : ℝ
  friction : ℝ

/-- The constants of the `Physics` constructor:
`gravity = -15`, `restitution = 0.6`, `friction = 0.98`. -/
noncomputable def defaultPhysics : Physics :=
  { gravity := -15, restitution := 6 / 10, friction := 98 / 100 }

/-- The local `distance` of `sphereVsSphere`:
Euclidean distance between the ball center and the pin center. -/
noncomputable def sphereDist (ball : Body) (pin : SphereObstacle) : ℝ :=
  Real.sqrt ((ball.position.x - pin.position.x) * (ball.position.x - pin.position.x) +
    (ball.position.y - pin.position.y) * (ball.position.y - pin.position.y) +
    (ball.position.z - pin.position.z) * (ball.position.z - pin.position.z))

/-- `Physics.sphereVsSphere` (physics.js lines 79-109).  Returns the updated
ball and whether the `onCollision` callback fires. -/
noncomputable def Physics.sphereVsSphere (ph : Physics) (ball : Body)
    (pin : SphereObstacle) : Body × Bool :=
  let dx := ball.position.x - pin.position.x
  let dy := ball.position.y - pin.position.y
  let dz := ball.position.z - pin.position.z
  let distance := sphereDist ball pin
  let minDist := ball.radius + pin.radius
  if distance < minDist ∧ distance > 0 then
    let nx := dx / distance
    let ny := dy / distance
    let nz := dz / distance
    let overlap := minDist - distance
    let dot := ball.velocity.x * nx + ball.velocity.y * ny + ball.velocity.z * nz
    ({ ball with
        position := ⟨ball.position.x + nx * overlap,
                     ball.position.y + ny * overlap,
                     ball.position.z + nz * overlap⟩,
        velocity := ⟨ball.velocity.x - 2 * dot * nx * ph.restitution,
                     ball.velocity.y - 2 * dot * ny * ph.restitution,
                     ball.velocity.z - 2 * dot * nz * ph.restitution⟩ }, true)
  else (ball, false)

/-- The local `horizontalDistance` of `sphereVsCylinder`. -/
noncomputable def cylinderDist (ball : Body) (c : CylinderObstacle) : ℝ :=
  Real.sqrt ((ball.position.x - c.position.x) * (ball.position.x - c.position.x) +
    (ball.position.z - c.position.z) * (ball.position.z - c.position.z))

/-- The local `withinHeight` of `sphereVsCylinder`. -/
def withinHeight (ball : Body) (c : CylinderObstacle) : Prop :=
  ball.position.y ≥ c.position.y - c.height / 2 ∧
    ball.position.y ≤ c.position.y + c.height / 2

noncomputable instance (ball : Body) (c : CylinderObstacle) :
    Decidable (withinHeight ball c) :=
  inferInstanceAs (Decidable (_ ∧ _))

/-- `Physics.sphereVsCylinder` (physics.js lines 111-141): horizontal-only
test and response, gated by the height band. -/
noncomputable def Physics.sphereVsCylinder (ph : Physics) (ball : Body)
    (c : CylinderObstacle) : Body × Bool :=
  let dx := ball.position.x - c.position.x
  let dz := ball.position.z - c.position.z
  let horizontalDistance := cylinderDist ball c
  let minDist := ball.radius + c.radius
  if horizontalDistance < minDist ∧ withinHeight ball c ∧ horizontalDistance > 0 then
    let nx := dx / horizontalDistance
    let nz := dz / horizontalDistance
    let overlap := minDist - horizontalDistance
    let dot := ball.velocity.x * nx + ball.velocity.z * nz
    ({ ball with
        position := ⟨ball.position.x + nx * overlap,
                     ball.position.y,
                     ball.position.z + nz * overlap⟩,
        velocity := ⟨ball.velocity.x - 2 * dot * nx * ph.restitution,
                     ball.velocity.y,
                     ball.velocity.z - 2 * dot * nz * ph.restitution⟩ }, true)
  else (ball, false)

/-- The local `closestX` of `sphereVsBox` (per-axis clamp). -/
noncomputable def closestX (ball : Body) (box : BoxObstacle) : ℝ :=
  max box.min.x (min ball.position.x box.max.x)

/-- The local `closestY` of `sphereVsBox`. -/
noncomputable def closestY (ball : Body) (box : BoxObstacle) : ℝ :=
  max box.min.y (min ball.position.y box.max.y)

/-- The local `closestZ` of `sphereVsBox`. -/
noncomputable def closestZ (ball : Body) (box : BoxObstacle) : ℝ :=
  max box.min.z (min ball.position.z box.max.z)

/-- The local `distance` of `sphereVsBox`: distance from the ball center to
the closest point of the box. -/
noncomputable def boxDist (ball : Body) (box : BoxObstacle) : ℝ :=
  Real.sqrt ((ball.position.x - closestX ball box) * (ball.position.x - closestX ball box) +
    (ball.position.y - closestY ball box) * (ball.position.y - closestY ball box) +
    (ball.position.z - closestZ ball box) * (ball.position.z - closestZ ball box))

/-- `Physics.sphereVsBox` (physics.js lines 143-180), with the
`distance === 0` containment recovery branch.  The recovery branch does not
invoke the callback in the source. -/
noncomputable def Physics.sphereVsBox (ph : Physics) (ball : Body)
    (box : BoxObstacle) : Body × Bool :=
  let dx := ball.position.x - closestX ball box
  let dy := ball.position.y - closestY ball box
  let dz := ball.position.z - closestZ ball box
  let distance := boxDist ball box
  if distance < ball.radius ∧ distance > 0 then
    let nx := dx / distance
    let ny := dy / distance
    let nz := dz / distance
    let overlap := ball.radius - distance
    let dot := ball.velocity.x * nx + ball.velocity.y * ny + ball.velocity.z * nz
    ({ ball with
        position := ⟨ball.position.x + nx * overlap,
                     ball.position.y + ny * overlap,
                     ball.position.z + nz * overlap⟩,
        velocity := ⟨ball.velocity.x - 2 * dot * nx * ph.restitution,
                     ball.velocity.y - 2 * dot * ny * ph.restitution,
                     ball.velocity.z - 2 * dot * nz * ph.restitution⟩ }, true)
  else if distance = 0 then
    ({ ball with
        position := ⟨ball.position.x, ball.position.y + ball.radius, ball.position.z⟩,
        velocity := ⟨ball.velocity.x, |ball.velocity.y| * ph.restitution, ball.velocity.z⟩ },
      false)
  else (ball, false)

/-- `Physics.checkCollision` (physics.js lines 69-77): dispatch on the shape tag. -/
noncomputable def Physics.checkCollision (ph : Physics) (ball : Body)
    (sb : StaticBody) : Body × Bool :=
  match sb with
  | .sphere s => ph.sphereVsSphere ball s
  | .box b => ph.sphereVsBox ball b
  | .cylinder c => ph.sphereVsCylinder ball c

/-- The integration part of the loop body of `Physics.update`
(physics.js lines 45-55): gravity on `v_y`, friction on `v_x`/`v_z`,
Euler position update, all with the clamped step. -/
noncomputable def integrateBody (ph : Physics) (fixedDelta : ℝ) (b : Body) : Body :=
  let v : Vec3 := ⟨b.velocity.x * ph.friction,
                   b.velocity.y + ph.gravity * fixedDelta,
                   b.velocity.z * ph.friction⟩
  { b with
      velocity := v
      position := ⟨b.position.x + v.x * fixedDelta,
                   b.position.y + v.y * fixedDelta,
                   b.position.z + v.z * fixedDelta⟩ }

/-- The collision loop of `Physics.update` (lines 57-60): resolve against
every static body in order, each contact seeing the state left by the
previous one. -/
noncomputable def resolveStatics (ph : Physics) (statics : List StaticBody)
    (b : Body) : Body :=
  statics.foldl (fun b sb => (ph.checkCollision b sb).1) b

/-- The random-perturbation step of `Physics.update` (lines 62-65), with the
`Math.random()` draw passed in as `rand`. -/
noncomputable def perturb (rand : ℝ) (b : Body) : Body :=
  if |b.velocity.x| > 1 / 10 ∨ |b.velocity.y| > 1 / 10 then
    { b with velocity := ⟨b.velocity.x + (rand - 1 / 2) * (1 / 10), b.velocity.y, b.velocity.z⟩ }
  else b

/-- The per-body part of `Physics.update` (physics.js lines 38-67).  Bodies
do not interact with each other in the source (each is tested only against
the static bodies), so the per-body step captures the whole update for each
body.  `rand` is the `Math.random()` draw of that body. -/
noncomputable def Physics.updateBody (ph : Physics) (statics : List StaticBody)
    (deltaTime : ℝ) (rand : ℝ) (b : Body) : Body :=
  if b.isStatic then b
  else
    let fixedDelta := min deltaTime (1 / 60)
    perturb rand (resolveStatics ph statics (integrateBody ph fixedDelta b))

/-! ### Slot layout and scoring (`PachinkoMachine.createSlots`, `PachinkoMachine.update`) -/

/-- `this.width = 6` in the `PachinkoMachine` constructor. -/
noncomputable def machineWidth : ℝ := 6

/-- `numSlots = 7` in `createSlots`. -/
def numSlots : ℕ := 7

/-- `slotWidth = this.width / numSlots`. -/
noncomputable def slotWidth : ℝ := machineWidth / numSlots

/-- `pointValues = [10, 50, 100, 500, 100, 50, 10]` in `createSlots`. -/
def pointValues : List ℕ := [10, 50, 100, 500, 100, 50, 10]

/-- The slot record pushed onto `this.slots` in `createSlots`. -/
structure Slot where
  x : ℝ
  minX : ℝ
  maxX : ℝ
  points : ℕ

/-- The slot built in iteration `i` of the loop of `createSlots`:
`x = -width/2 + slotWidth/2 + i*slotWidth`, bounds `x ∓ slotWidth/2`. -/
noncomputable def mkSlot (i : ℕ) : Slot :=
  let x : ℝ := -machineWidth / 2 + slotWidth / 2 + i * slotWidth
  { x := x
    minX := x - slotWidth / 2
    maxX := x + slotWidth / 2
    points := pointValues.getD i 0 }

/-- The full slot list built by `createSlots`. -/
noncomputable def slots : List Slot := (List.range numSlots).map mkSlot

/-- The slot-scan loop of `PachinkoMachine.update` (part_002 lines 336-344):
the first slot with `x >= slot.minX && x <= slot.maxX`, `break` on match. -/
noncomputable def firstHit (x : ℝ) : List Slot → Option Slot
  | [] => none
  | s :: rest => if x ≥ s.minX ∧ x ≤ s.maxX then some s else firstHit x rest

/-- The per-ball lifecycle state read by the scoring check of
`PachinkoMachine.update`: the `scored` flag and the ball position. -/
structure BallState where
  scored : Bool
  posX : ℝ
  posY : ℝ

/-- The scoring check of `PachinkoMachine.update` (lines 333-345) for one
ball in one frame: if the ball has not scored and `position[1] < 0.5`, scan
the slots; on the first match set `scored` and emit the points of that slot. -/
noncomputable def scoreCheck (b : BallState) : BallState × Option ℕ :=
  if b.scored = false ∧ b.posY < 1 / 2 then
    match firstHit b.posX slots with
    | some s => ({ b with scored := true }, some s.points)
    | none => (b, none)
  else (b, none)

/-- A sequence of per-frame scoring checks for one ball: `frames` lists the
position `(x, y)` of the ball at each frame; returns the final `scored` flag and
the list of emitted score events. -/
noncomputable def runScoreChecks : Bool → List (ℝ × ℝ) → Bool × List ℕ
  | scored, [] => (scored, [])
  | scored, (x, y) :: rest =>
      let step := scoreCheck ⟨scored, x, y⟩
      let r := runScoreChecks step.1.scored rest
      (r.1, step.2.toList ++ r.2)

/-- Modelled from the spec (claim C2), for comparison with the scoring
scan of the code: membership of an x-coordinate in the half-open
`[minX, maxX)` range. -/
def slotHalfOpenMem (s : Slot) (x : ℝ) : Prop := s.minX ≤ x ∧ x < s.maxX

/-! ### Contact normals (the `nx`, `ny`, `nz` locals of the resolvers) -/

/-- The contact normal of `sphereVsSphere`. -/
noncomputable def sphereNormal (ball : Body) (pin : SphereObstacle) : Vec3 :=
  ⟨(ball.position.x - pin.position.x) / sphereDist ball pin,
   (ball.position.y - pin.position.y) / sphereDist ball pin,
   (ball.position.z - pin.position.z) / sphereDist ball pin⟩

/-- The contact normal of `sphereVsCylinder` (horizontal; `y` component 0). -/
noncomputable def cylinderNormal (ball : Body) (c : CylinderObstacle) : Vec3 :=
  ⟨(ball.position.x - c.position.x) / cylinderDist ball c,
   0,
   (ball.position.z - c.position.z) / cylinderDist ball c⟩

/-- The contact normal of `sphereVsBox` (from the closest point to the center). -/
noncomputable def boxNormal (ball : Body) (box : BoxObstacle) : Vec3 :=
  ⟨(ball.position.x - closestX ball box) / boxDist ball box,
   (ball.position.y - closestY ball box) / boxDist ball box,
   (ball.position.z - closestZ ball box) / boxDist ball box⟩

/-- Euclidean dot product on `Vec3`. -/
def dot3 (a b : Vec3) : ℝ := a.x * b.x + a.y * b.y + a.z * b.z

/-! ### Concrete inputs for witnesses and counterexamples -/

/-- A concrete falling ball used by the C5 witness. -/
noncomputable def cexBody : Body := ⟨⟨0, 5, 0⟩, ⟨0, 0, 0⟩, 18 / 100, false⟩

/-- A ball overlapping `pin1` and `cyl1`, moving away along the contact normal. -/
noncomputable def ball1 : Body := ⟨⟨1, 0, 0⟩, ⟨1, 0, 0⟩, 1 / 2, false⟩

/-- A static sphere obstacle at the origin. -/
noncomputable def pin1 : SphereObstacle := ⟨⟨0, 0, 0⟩, 1⟩

/-- A tall static cylinder at the origin. -/
noncomputable def cyl1 : CylinderObstacle := ⟨⟨0, 0, 0⟩, 1, 10⟩

/-- The floor-like static box used in the box-collision scenarios. -/
noncomputable def box1 : BoxObstacle := ⟨⟨-3, -1, -1⟩, ⟨3, 0, 1⟩⟩

/-- A ball overlapping `box1` from above, moving upward. -/
noncomputable def ballB : Body := ⟨⟨0, 1 / 2, 0⟩, ⟨0, 1, 0⟩, 1, false⟩

/-- A ball at rest that free-falls for one step (C7 scenario). -/
noncomputable def fallBody : Body := ⟨⟨0, 5, 0⟩, ⟨0, 0, 0⟩, 18 / 100, false⟩

/-- A ball far above the pin height band (C6 scenario). -/
noncomputable def highBody : Body := ⟨⟨0, 10, 0⟩, ⟨1, 2, 3⟩, 18 / 100, false⟩

/-- A pin with the dimensions used by `createPins`. -/
noncomputable def pinCyl : CylinderObstacle := ⟨⟨0, 0, 0⟩, 12 / 100, 2 / 5⟩

/-- A ball whose center coincides with the obstacle centers below (C8 scenario). -/
noncomputable def coBody : Body := ⟨⟨1, 2, 3⟩, ⟨4, 5, 6⟩, 1 / 2, false⟩

/-- A static sphere centered exactly at the center of `coBody`. -/
noncomputable def coPin : SphereObstacle := ⟨⟨1, 2, 3⟩, 2⟩

/-- A static cylinder horizontally coincident with `coBody`. -/
noncomputable def coCyl : CylinderObstacle := ⟨⟨1, 0, 3⟩, 1, 4⟩

/-- A ball with zero velocity whose center lies inside `box1` (C9 scenario). -/
noncomputable def ballZ : Body := ⟨⟨0, -1 / 2, 0⟩, ⟨0, 0, 0⟩, 18 / 100, false⟩

/-- A moving ball whose center lies inside `box1` (C9 witness). -/
noncomputable def ballW : Body := ⟨⟨0, -1 / 2, 0⟩, ⟨3, -2, 1⟩, 18 / 100, false⟩



/-! ### Algebra helpers -/

lemma reflect_dot_normal (nx ny nz e vx vy vz : ℝ)
    (hn : nx * nx + ny * ny + nz * nz = 1) :
    (vx - 2 * (vx * nx + vy * ny + vz * nz) * nx * e) * nx +
    (vy - 2 * (vx * nx + vy * ny + vz * nz) * ny * e) * ny +
    (vz - 2 * (vx * nx + vy * ny + vz * nz) * nz * e) * nz
      = (1 - 2 * e) * (vx * nx + vy * ny + vz * nz) := by
  linear_combination (-(2 * e * (vx * nx + vy * ny + vz * nz))) * hn

lemma reflect_dot_tangent (nx ny nz e vx vy vz tx ty tz : ℝ)
    (ht : tx * nx + ty * ny + tz * nz = 0) :
    tx * (vx - 2 * (vx * nx + vy * ny + vz * nz) * nx * e) +
    ty * (vy - 2 * (vx * nx + vy * ny + vz * nz) * ny * e) +
    tz * (vz - 2 * (vx * nx + vy * ny + vz * nz) * nz * e)
      = tx * vx + ty * vy + tz * vz := by
  linear_combination (-(2 * e * (vx * nx + vy * ny + vz * nz))) * ht

lemma sphereDist_sq (ball : Body) (pin : SphereObstacle) :
    (ball.position.x - pin.position.x) * (ball.position.x - pin.position.x) +
    (ball.position.y - pin.position.y) * (ball.position.y - pin.position.y) +
    (ball.position.z - pin.position.z) * (ball.position.z - pin.position.z)
      = sphereDist ball pin * sphereDist ball pin := by
  rw [sphereDist]
  exact (Real.mul_self_sqrt (add_nonneg (add_nonneg (mul_self_nonneg _) (mul_self_nonneg _))
    (mul_self_nonneg _))).symm

lemma cylinderDist_sq (ball : Body) (c : CylinderObstacle) :
    (ball.position.x - c.position.x) * (ball.position.x - c.position.x) +
    (ball.position.z - c.position.z) * (ball.position.z - c.position.z)
      = cylinderDist ball c * cylinderDist ball c := by
  rw [cylinderDist]
  exact (Real.mul_self_sqrt (add_nonneg (mul_self_nonneg _) (mul_self_nonneg _))).symm

lemma boxDist_sq (ball : Body) (box : BoxObstacle) :
    (ball.position.x - closestX ball box) * (ball.position.x - closestX ball box) +
    (ball.position.y - closestY ball box) * (ball.position.y - closestY ball box) +
    (ball.position.z - closestZ ball box) * (ball.position.z - closestZ ball box)
      = boxDist ball box * boxDist ball box := by
  rw [boxDist]
  exact (Real.mul_self_sqrt (add_nonneg (add_nonneg (mul_self_nonneg _) (mul_self_nonneg _))
    (mul_self_nonneg _))).symm

lemma sphereNormal_sq (ball : Body) (pin : SphereObstacle) (h : 0 < sphereDist ball pin) :
    (ball.position.x - pin.position.x) / sphereDist ball pin *
      ((ball.position.x - pin.position.x) / sphereDist ball pin) +
    (ball.position.y - pin.position.y) / sphereDist ball pin *
      ((ball.position.y - pin.position.y) / sphereDist ball pin) +
    (ball.position.z - pin.position.z) / sphereDist ball pin *
      ((ball.position.z - pin.position.z) / sphereDist ball pin) = 1 := by
  have hs := sphereDist_sq ball pin
  field_simp
  linarith

lemma cylinderNormal_sq (ball : Body) (c : CylinderObstacle) (h : 0 < cylinderDist ball c) :
    (ball.position.x - c.position.x) / cylinderDist ball c *
      ((ball.position.x - c.position.x) / cylinderDist ball c) +
    (ball.position.z - c.position.z) / cylinderDist ball c *
      ((ball.position.z - c.position.z) / cylinderDist ball c) = 1 := by
  have hs := cylinderDist_sq ball c
  field_simp
  linarith

lemma boxNormal_sq (ball : Body) (box : BoxObstacle) (h : 0 < boxDist ball box) :
    (ball.position.x - closestX ball box) / boxDist ball box *
      ((ball.position.x - closestX ball box) / boxDist ball box) +
    (ball.position.y - closestY ball box) / boxDist ball box *
      ((ball.position.y - closestY ball box) / boxDist ball box) +
    (ball.position.z - closestZ ball box) / boxDist ball box *
      ((ball.position.z - closestZ ball box) / boxDist ball box) = 1 := by
  have hs := boxDist_sq ball box
  field_simp
  linarith



/-! ### Branch lemmas for the resolvers -/

lemma sphereVsSphere_hit (ph : Physics) (ball : Body) (pin : SphereObstacle)
    (h1 : sphereDist ball pin < ball.radius + pin.radius)
    (h2 : sphereDist ball pin > 0) :
    ph.sphereVsSphere ball pin =
      ({ ball with
          position := ⟨ball.position.x + (ball.position.x - pin.position.x) / sphereDist ball pin *
                        (ball.radius + pin.radius - sphereDist ball pin),
                       ball.position.y + (ball.position.y - pin.position.y) / sphereDist ball pin *
                        (ball.radius + pin.radius - sphereDist ball pin),
                       ball.position.z + (ball.position.z - pin.position.z) / sphereDist ball pin *
                        (ball.radius + pin.radius - sphereDist ball pin)⟩,
          velocity := ⟨ball.velocity.x - 2 * dot3 ball.velocity (sphereNormal ball pin) *
                        ((ball.position.x - pin.position.x) / sphereDist ball pin) * ph.restitution,
                       ball.velocity.y - 2 * dot3 ball.velocity (sphereNormal ball pin) *
                        ((ball.position.y - pin.position.y) / sphereDist ball pin) * ph.restitution,
                       ball.velocity.z - 2 * dot3 ball.velocity (sphereNormal ball pin) *
                        ((ball.position.z - pin.position.z) / sphereDist ball pin) * ph.restitution⟩ },
        true) := by
  simp only [Physics.sphereVsSphere, sphereNormal, dot3]
  rw [if_pos ⟨h1, h2⟩]

lemma sphereVsSphere_miss (ph : Physics) (ball : Body) (pin : SphereObstacle)
    (h : ¬(sphereDist ball pin < ball.radius + pin.radius ∧ sphereDist ball pin > 0)) :
    ph.sphereVsSphere ball pin = (ball, false) := by
  simp only [Physics.sphereVsSphere]
  rw [if_neg h]

lemma sphereVsCylinder_hit (ph : Physics) (ball : Body) (c : CylinderObstacle)
    (h1 : cylinderDist ball c < ball.radius + c.radius)
    (h2 : withinHeight ball c)
    (h3 : cylinderDist ball c > 0) :
    ph.sphereVsCylinder ball c =
      ({ ball with
          position := ⟨ball.position.x + (ball.position.x - c.position.x) / cylinderDist ball c *
                        (ball.radius + c.radius - cylinderDist ball c),
                       ball.position.y,
                       ball.position.z + (ball.position.z - c.position.z) / cylinderDist ball c *
                        (ball.radius + c.radius - cylinderDist ball c)⟩,
          velocity := ⟨ball.velocity.x -
                        2 * (ball.velocity.x * ((ball.position.x - c.position.x) / cylinderDist ball c) +
                          ball.velocity.z * ((ball.position.z - c.position.z) / cylinderDist ball c)) *
                        ((ball.position.x - c.position.x) / cylinderDist ball c) * ph.restitution,
                       ball.velocity.y,
                       ball.velocity.z -
                        2 * (ball.velocity.x * ((ball.position.x - c.position.x) / cylinderDist ball c) +
                          ball.velocity.z * ((ball.position.z - c.position.z) / cylinderDist ball c)) *
                        ((ball.position.z - c.position.z) / cylinderDist ball c) * ph.restitution⟩ },
        true) := by
  simp only [Physics.sphereVsCylinder]
  rw [if_pos ⟨h1, h2, h3⟩]

lemma sphereVsCylinder_miss (ph : Physics) (ball : Body) (c : CylinderObstacle)
    (h : ¬(cylinderDist ball c < ball.radius + c.radius ∧ withinHeight ball c ∧
        cylinderDist ball c > 0)) :
    ph.sphereVsCylinder ball c = (ball, false) := by
  simp only [Physics.sphereVsCylinder]
  rw [if_neg h]

lemma sphereVsBox_hit (ph : Physics) (ball : Body) (box : BoxObstacle)
    (h1 : boxDist ball box < ball.radius)
    (h2 : boxDist ball box > 0) :
    ph.sphereVsBox ball box =
      ({ ball with
          position := ⟨ball.position.x + (ball.position.x - closestX ball box) / boxDist ball box *
                        (ball.radius - boxDist ball box),
                       ball.position.y + (ball.position.y - closestY ball box) / boxDist ball box *
                        (ball.radius - boxDist ball box),
                       ball.position.z + (ball.position.z - closestZ ball box) / boxDist ball box *
                        (ball.radius - boxDist ball box)⟩,
          velocity := ⟨ball.velocity.x - 2 * dot3 ball.velocity (boxNormal ball box) *
                        ((ball.position.x - closestX ball box) / boxDist ball box) * ph.restitution,
                       ball.velocity.y - 2 * dot3 ball.velocity (boxNormal ball box) *
                        ((ball.position.y - closestY ball box) / boxDist ball box) * ph.restitution,
                       ball.velocity.z - 2 * dot3 ball.velocity (boxNormal ball box) *
                        ((ball.position.z - closestZ ball box) / boxDist ball box) * ph.restitution⟩ },
        true) := by
  simp only [Physics.sphereVsBox, boxNormal, dot3]
  rw [if_pos ⟨h1, h2⟩]

lemma sphereVsBox_contained (ph : Physics) (ball : Body) (box : BoxObstacle)
    (h : boxDist ball box = 0) :
    ph.sphereVsBox ball box =
      ({ ball with
          position := ⟨ball.position.x, ball.position.y + ball.radius, ball.position.z⟩,
          velocity := ⟨ball.velocity.x, |ball.velocity.y| * ph.restitution, ball.velocity.z⟩ },
        false) := by
  simp only [Physics.sphereVsBox]
  rw [if_neg (by rw [h]; exact fun hc => lt_irrefl 0 hc.2), if_pos h]






/-- C5: the per-body physics step uses the clamped step min(dt, 1/60) as its only
dependence on dt; in particular any call with dt above 1/60 behaves exactly as a
call with dt = 1/60. -/
theorem C5_thm (ph : Physics) (statics : List StaticBody) (dt rand : ℝ) (b : Body) :
    ph.updateBody statics dt rand b = ph.updateBody statics (min dt (1 / 60)) rand b ∧
      (1 / 60 < dt →
        ph.updateBody statics dt rand b = ph.updateBody statics (1 / 60) rand b) := by
  constructor
  · simp only [Physics.updateBody]
    rw [min_assoc, min_self]
  · intro h
    simp only [Physics.updateBody]
    rw [min_eq_right h.le, min_self]



/-- C5 witness: the clamping theorem applied at dt = 1 on a concrete body. -/
theorem C5_witness :
    (1 / 60 : ℝ) < 1 ∧
      defaultPhysics.updateBody [] 1 0 cexBody
        = defaultPhysics.updateBody [] (1 / 60) 0 cexBody :=
  ⟨by norm_num, (C5_thm defaultPhysics [] 1 0 cexBody).2 (by norm_num)⟩


/-- C6: the cylinder resolver never changes the vertical velocity of the ball, and
outside the height band it changes nothing at all and fires no callback. -/
theorem C6_thm :
    (∀ (ph : Physics) (b : Body) (c : CylinderObstacle),
        (ph.sphereVsCylinder b c).1.velocity.y = b.velocity.y) ∧
    (∀ (ph : Physics) (b : Body) (c : CylinderObstacle),
        ¬ withinHeight b c → ph.sphereVsCylinder b c = (b, false)) := by
  constructor
  · intro ph b c
    simp only [Physics.sphereVsCylinder]
    split_ifs <;> rfl
  · intro ph b c h
    exact sphereVsCylinder_miss ph b c (fun hc => h hc.2.1)




/-- C6 witness: a ball above the height band of a pin is left untouched. -/
theorem C6_witness :
    ¬ withinHeight highBody pinCyl ∧
      defaultPhysics.sphereVsCylinder highBody pinCyl = (highBody, false) := by
  have h : ¬ withinHeight highBody pinCyl := by
    rintro ⟨-, h2⟩
    norm_num [highBody, pinCyl] at h2
  exact ⟨h, C6_thm.2 defaultPhysics highBody pinCyl h⟩


/-- C8: with the ball center coincident with the obstacle center (distance 0), the
sphere and cylinder resolvers are silent no-ops: state unchanged, no callback. -/
theorem C8_thm :
    (∀ (ph : Physics) (b : Body) (pin : SphereObstacle),
        b.position = pin.position → ph.sphereVsSphere b pin = (b, false)) ∧
    (∀ (ph : Physics) (b : Body) (c : CylinderObstacle),
        b.position.x = c.position.x → b.position.z = c.position.z →
          ph.sphereVsCylinder b c = (b, false)) := by
  constructor
  · intro ph b pin h
    have hd : sphereDist b pin = 0 := by
      simp [sphereDist, h]
    exact sphereVsSphere_miss ph b pin (by rw [hd]; exact fun hc => lt_irrefl 0 hc.2)
  · intro ph b c h1 h2
    have hd : cylinderDist b c = 0 := by
      simp [cylinderDist, h1, h2]
    exact sphereVsCylinder_miss ph b c (by rw [hd]; exact fun hc => lt_irrefl 0 hc.2.2)





/-- C8 witness: the no-op theorem applied at concrete coincident configurations. -/
theorem C8_witness :
    defaultPhysics.sphereVsSphere coBody coPin = (coBody, false) ∧
      defaultPhysics.sphereVsCylinder coBody coCyl = (coBody, false) :=
  ⟨C8_thm.1 defaultPhysics coBody coPin rfl,
   C8_thm.2 defaultPhysics coBody coCyl rfl rfl⟩



lemma reflect_dot_normal2 (nx nz e vx vz : ℝ) (hn : nx * nx + nz * nz = 1) :
    (vx - 2 * (vx * nx + vz * nz) * nx * e) * nx +
    (vz - 2 * (vx * nx + vz * nz) * nz * e) * nz
      = (1 - 2 * e) * (vx * nx + vz * nz) := by
  linear_combination (-(2 * e * (vx * nx + vz * nz))) * hn

lemma reflect_dot_tangent2 (nx nz e vx vy vz tx ty tz : ℝ)
    (ht : tx * nx + tz * nz = 0) :
    tx * (vx - 2 * (vx * nx + vz * nz) * nx * e) + ty * vy +
    tz * (vz - 2 * (vx * nx + vz * nz) * nz * e)
      = tx * vx + ty * vy + tz * vz := by
  linear_combination (-(2 * e * (vx * nx + vz * nz))) * ht


/-- C1 amended: on every resolved collision the velocity component along the
contact normal is scaled by (1 - 2 * restitution) (the code subtracts
2 * dot * n * restitution rather than (1 + restitution) * dot * n), and every
tangential component is exactly unchanged. -/
theorem C1_thm :
    (∀ (ph : Physics) (ball : Body) (pin : SphereObstacle),
      sphereDist ball pin < ball.radius + pin.radius → sphereDist ball pin > 0 →
      dot3 (ph.sphereVsSphere ball pin).1.velocity (sphereNormal ball pin)
          = (1 - 2 * ph.restitution) * dot3 ball.velocity (sphereNormal ball pin) ∧
        ∀ t : Vec3, dot3 t (sphereNormal ball pin) = 0 →
          dot3 t (ph.sphereVsSphere ball pin).1.velocity = dot3 t ball.velocity) ∧
    (∀ (ph : Physics) (ball : Body) (c : CylinderObstacle),
      cylinderDist ball c < ball.radius + c.radius → withinHeight ball c →
      cylinderDist ball c > 0 →
      dot3 (ph.sphereVsCylinder ball c).1.velocity (cylinderNormal ball c)
          = (1 - 2 * ph.restitution) * dot3 ball.velocity (cylinderNormal ball c) ∧
        ∀ t : Vec3, dot3 t (cylinderNormal ball c) = 0 →
          dot3 t (ph.sphereVsCylinder ball c).1.velocity = dot3 t ball.velocity) ∧
    (∀ (ph : Physics) (ball : Body) (box : BoxObstacle),
      boxDist ball box < ball.radius → boxDist ball box > 0 →
      dot3 (ph.sphereVsBox ball box).1.velocity (boxNormal ball box)
          = (1 - 2 * ph.restitution) * dot3 ball.velocity (boxNormal ball box) ∧
        ∀ t : Vec3, dot3 t (boxNormal ball box) = 0 →
          dot3 t (ph.sphereVsBox ball box).1.velocity = dot3 t ball.velocity) := by
  refine ⟨fun ph ball pin h1 h2 => ?_, fun ph ball c h1 h2 h3 => ?_,
    fun ph ball box h1 h2 => ?_⟩
  · rw [sphereVsSphere_hit ph ball pin h1 h2]
    constructor
    · simp only [dot3, sphereNormal]
      exact reflect_dot_normal _ _ _ _ _ _ _ (sphereNormal_sq ball pin h2)
    · intro t ht
      simp only [dot3, sphereNormal] at ht ⊢
      exact reflect_dot_tangent _ _ _ _ _ _ _ _ _ _ ht
  · rw [sphereVsCylinder_hit ph ball c h1 h2 h3]
    constructor
    · simp only [dot3, cylinderNormal, mul_zero, add_zero]
      exact reflect_dot_normal2 _ _ _ _ _ (cylinderNormal_sq ball c h3)
    · intro t ht
      simp only [dot3, cylinderNormal, mul_zero, add_zero] at ht ⊢
      exact reflect_dot_tangent2 _ _ _ _ _ _ _ _ _ ht
  · rw [sphereVsBox_hit ph ball box h1 h2]
    constructor
    · simp only [dot3, boxNormal]
      exact reflect_dot_normal _ _ _ _ _ _ _ (boxNormal_sq ball box h2)
    · intro t ht
      simp only [dot3, boxNormal] at ht ⊢
      exact reflect_dot_tangent _ _ _ _ _ _ _ _ _ _ ht








lemma dist_ball1 : sphereDist ball1 pin1 = 1 := by
  norm_num [sphereDist, ball1, pin1]

lemma cdist_ball1 : cylinderDist ball1 cyl1 = 1 := by
  norm_num [cylinderDist, ball1, cyl1]

lemma bdist_ballB : boxDist ballB box1 = 1 / 2 := by
  have h1 : closestX ballB box1 = 0 := by
    norm_num [closestX, ballB, box1]
  have h2 : closestY ballB box1 = 0 := by
    norm_num [closestY, ballB, box1]
  have h3 : closestZ ballB box1 = 0 := by
    norm_num [closestZ, ballB, box1]
  rw [boxDist, h1, h2, h3]
  simp only [ballB]
  rw [show ((0:ℝ) - 0) * (0 - 0) + (1/2 - 0) * (1/2 - 0) + (0 - 0) * (0 - 0)
      = (1/2) * (1/2) by norm_num]
  exact Real.sqrt_mul_self (by norm_num)

lemma normal_ball1 : sphereNormal ball1 pin1 = ⟨1, 0, 0⟩ := by
  simp only [sphereNormal, dist_ball1]
  norm_num [ball1, pin1]


/-- C1 counterexample: at restitution 0.6 a head-on unit normal velocity becomes
-(1/5), not -restitution * 1 = -(3/5); the claimed law v_n = -restitution * v_n
is false on the code. -/
theorem C1_cex :
    (defaultPhysics.sphereVsSphere ball1 pin1).2 = true ∧
    dot3 ball1.velocity (sphereNormal ball1 pin1) = 1 ∧
    dot3 (defaultPhysics.sphereVsSphere ball1 pin1).1.velocity (sphereNormal ball1 pin1)
      = -(1 / 5) ∧
    (-(1 / 5) : ℝ) ≠ -defaultPhysics.restitution * 1 := by
  have h1 : sphereDist ball1 pin1 < ball1.radius + pin1.radius := by
    rw [dist_ball1]; norm_num [ball1, pin1]
  have h2 : sphereDist ball1 pin1 > 0 := by rw [dist_ball1]; norm_num
  refine ⟨?_, ?_, ?_, ?_⟩
  · rw [sphereVsSphere_hit defaultPhysics ball1 pin1 h1 h2]
  · rw [normal_ball1]
    norm_num [dot3, ball1]
  · rw [sphereVsSphere_hit defaultPhysics ball1 pin1 h1 h2]
    simp only [dot3, normal_ball1, dist_ball1]
    norm_num [ball1, pin1, defaultPhysics]
  · norm_num [defaultPhysics]




/-- C4: a resolved sphere-sphere collision displaces the ball along the contact
normal by exactly the penetration depth, and the post-resolution center distance
is exactly the sum of the radii. -/
theorem C4_thm (ph : Physics) (ball : Body) (pin : SphereObstacle)
    (h1 : sphereDist ball pin < ball.radius + pin.radius)
    (h2 : sphereDist ball pin > 0) :
    ((ph.sphereVsSphere ball pin).1.position.x
        = ball.position.x +
          (ball.radius + pin.radius - sphereDist ball pin) * (sphereNormal ball pin).x ∧
      (ph.sphereVsSphere ball pin).1.position.y
        = ball.position.y +
          (ball.radius + pin.radius - sphereDist ball pin) * (sphereNormal ball pin).y ∧
      (ph.sphereVsSphere ball pin).1.position.z
        = ball.position.z +
          (ball.radius + pin.radius - sphereDist ball pin) * (sphereNormal ball pin).z) ∧
    sphereDist (ph.sphereVsSphere ball pin).1 pin = ball.radius + pin.radius := by
  have hs := sphereDist_sq ball pin
  have hne : sphereDist ball pin ≠ 0 := ne_of_gt h2
  rw [sphereVsSphere_hit ph ball pin h1 h2]
  refine ⟨⟨?_, ?_, ?_⟩, ?_⟩
  · simp only [sphereNormal]; ring
  · simp only [sphereNormal]; ring
  · simp only [sphereNormal]; ring
  · simp only [sphereDist] at hne hs ⊢
    conv_rhs => rw [← Real.sqrt_mul_self (show (0:ℝ) ≤ ball.radius + pin.radius by linarith)]
    congr 1
    field_simp
    linear_combination ((ball.radius + pin.radius) * (ball.radius + pin.radius)) * hs




/-- C4 witness: the separation theorem applied to a concrete overlapping pair. -/
theorem C4_witness :
    (defaultPhysics.sphereVsSphere ball1 pin1).1.position.x
        = ball1.position.x +
          (ball1.radius + pin1.radius - sphereDist ball1 pin1) * (sphereNormal ball1 pin1).x ∧
      sphereDist (defaultPhysics.sphereVsSphere ball1 pin1).1 pin1
        = ball1.radius + pin1.radius := by
  have h1 : sphereDist ball1 pin1 < ball1.radius + pin1.radius := by
    rw [dist_ball1]; norm_num [ball1, pin1]
  have h2 : sphereDist ball1 pin1 > 0 := by rw [dist_ball1]; norm_num
  exact ⟨(C4_thm defaultPhysics ball1 pin1 h1 h2).1.1,
    (C4_thm defaultPhysics ball1 pin1 h1 h2).2⟩



lemma factor_zero2 (n o : ℝ) (ho : 0 < o) (h : n * o = 0) : n = 0 := by
  rcases mul_eq_zero.1 h with h' | h'
  · exact h'
  · exact absurd h' (ne_of_gt ho)

lemma factor_zero4 (a n e : ℝ) (ha : 0 < a) (he : 0 < e) (h : 2 * a * n * e = 0) : n = 0 := by
  by_contra hne
  exact (mul_ne_zero (mul_ne_zero (mul_ne_zero two_ne_zero (ne_of_gt ha)) hne)
    (ne_of_gt he)) h


/-- C10: the resolvers have no approaching-contact precondition: even when the
ball moves away from the obstacle (positive normal velocity), a detected
penetration still fires the callback, still displaces the ball and still changes
its velocity. -/
theorem C10_thm :
    (∀ (ph : Physics) (ball : Body) (pin : SphereObstacle),
      sphereDist ball pin < ball.radius + pin.radius → sphereDist ball pin > 0 →
      0 < dot3 ball.velocity (sphereNormal ball pin) → 0 < ph.restitution →
      (ph.sphereVsSphere ball pin).2 = true ∧
        (ph.sphereVsSphere ball pin).1.position ≠ ball.position ∧
        (ph.sphereVsSphere ball pin).1.velocity ≠ ball.velocity) ∧
    (∀ (ph : Physics) (ball : Body) (c : CylinderObstacle),
      cylinderDist ball c < ball.radius + c.radius → withinHeight ball c →
      cylinderDist ball c > 0 →
      0 < dot3 ball.velocity (cylinderNormal ball c) → 0 < ph.restitution →
      (ph.sphereVsCylinder ball c).2 = true ∧
        (ph.sphereVsCylinder ball c).1.position ≠ ball.position ∧
        (ph.sphereVsCylinder ball c).1.velocity ≠ ball.velocity) ∧
    (∀ (ph : Physics) (ball : Body) (box : BoxObstacle),
      boxDist ball box < ball.radius → boxDist ball box > 0 →
      0 < dot3 ball.velocity (boxNormal ball box) → 0 < ph.restitution →
      (ph.sphereVsBox ball box).2 = true ∧
        (ph.sphereVsBox ball box).1.position ≠ ball.position ∧
        (ph.sphereVsBox ball box).1.velocity ≠ ball.velocity) := by
  refine ⟨fun ph ball pin h1 h2 hdot he => ?_, fun ph ball c h1 hw h2 hdot he => ?_,
    fun ph ball box h1 h2 hdot he => ?_⟩
  · simp only [dot3, sphereNormal] at hdot
    have hn := sphereNormal_sq ball pin h2
    have ho : (0:ℝ) < ball.radius + pin.radius - sphereDist ball pin := by linarith
    rw [sphereVsSphere_hit ph ball pin h1 h2]
    refine ⟨rfl, fun hp => ?_, fun hv => ?_⟩
    · have hx := congrArg Vec3.x hp
      have hy := congrArg Vec3.y hp
      have hz := congrArg Vec3.z hp
      simp only at hx hy hz
      have hnx := factor_zero2 ((ball.position.x - pin.position.x) / sphereDist ball pin) _
        ho (by linarith)
      have hny := factor_zero2 ((ball.position.y - pin.position.y) / sphereDist ball pin) _
        ho (by linarith)
      have hnz := factor_zero2 ((ball.position.z - pin.position.z) / sphereDist ball pin) _
        ho (by linarith)
      rw [hnx, hny, hnz] at hn
      norm_num at hn
    · have hx := congrArg Vec3.x hv
      have hy := congrArg Vec3.y hv
      have hz := congrArg Vec3.z hv
      simp only [dot3, sphereNormal] at hx hy hz
      have hnx := factor_zero4 _ ((ball.position.x - pin.position.x) / sphereDist ball pin) _
        hdot he (by linarith)
      have hny := factor_zero4 _ ((ball.position.y - pin.position.y) / sphereDist ball pin) _
        hdot he (by linarith)
      have hnz := factor_zero4 _ ((ball.position.z - pin.position.z) / sphereDist ball pin) _
        hdot he (by linarith)
      rw [hnx, hny, hnz] at hn
      norm_num at hn
  · simp only [dot3, cylinderNormal, mul_zero, add_zero] at hdot
    have hn := cylinderNormal_sq ball c h2
    have ho : (0:ℝ) < ball.radius + c.radius - cylinderDist ball c := by linarith
    rw [sphereVsCylinder_hit ph ball c h1 hw h2]
    refine ⟨rfl, fun hp => ?_, fun hv => ?_⟩
    · have hx := congrArg Vec3.x hp
      have hz := congrArg Vec3.z hp
      simp only at hx hz
      have hnx := factor_zero2 ((ball.position.x - c.position.x) / cylinderDist ball c) _
        ho (by linarith)
      have hnz := factor_zero2 ((ball.position.z - c.position.z) / cylinderDist ball c) _
        ho (by linarith)
      rw [hnx, hnz] at hn
      norm_num at hn
    · have hx := congrArg Vec3.x hv
      have hz := congrArg Vec3.z hv
      simp only at hx hz
      have hnx := factor_zero4 _ ((ball.position.x - c.position.x) / cylinderDist ball c) _
        hdot he (by linarith)
      have hnz := factor_zero4 _ ((ball.position.z - c.position.z) / cylinderDist ball c) _
        hdot he (by linarith)
      rw [hnx, hnz] at hn
      norm_num at hn
  · simp only [dot3, boxNormal] at hdot
    have hn := boxNormal_sq ball box h2
    have ho : (0:ℝ) < ball.radius - boxDist ball box := by linarith
    rw [sphereVsBox_hit ph ball box h1 h2]
    refine ⟨rfl, fun hp => ?_, fun hv => ?_⟩
    · have hx := congrArg Vec3.x hp
      have hy := congrArg Vec3.y hp
      have hz := congrArg Vec3.z hp
      simp only at hx hy hz
      have hnx := factor_zero2 ((ball.position.x - closestX ball box) / boxDist ball box) _
        ho (by linarith)
      have hny := factor_zero2 ((ball.position.y - closestY ball box) / boxDist ball box) _
        ho (by linarith)
      have hnz := factor_zero2 ((ball.position.z - closestZ ball box) / boxDist ball box) _
        ho (by linarith)
      rw [hnx, hny, hnz] at hn
      norm_num at hn
    · have hx := congrArg Vec3.x hv
      have hy := congrArg Vec3.y hv
      have hz := congrArg Vec3.z hv
      simp only [dot3, boxNormal] at hx hy hz
      have hnx := factor_zero4 _ ((ball.position.x - closestX ball box) / boxDist ball box) _
        hdot he (by linarith)
      have hny := factor_zero4 _ ((ball.position.y - closestY ball box) / boxDist ball box) _
        hdot he (by linarith)
      have hnz := factor_zero4 _ ((ball.position.z - closestZ ball box) / boxDist ball box) _
        hdot he (by linarith)
      rw [hnx, hny, hnz] at hn
      norm_num at hn



lemma cnormal_ball1 : cylinderNormal ball1 cyl1 = ⟨1, 0, 0⟩ := by
  simp only [cylinderNormal, cdist_ball1]
  norm_num [ball1, cyl1]

lemma bnormal_ballB : boxNormal ballB box1 = ⟨0, 1, 0⟩ := by
  simp only [boxNormal, bdist_ballB]
  norm_num [ballB, box1, closestX, closestY, closestZ]


/-- C10 witness: separating contacts still resolved, at concrete inputs for all
three resolvers. -/
theorem C10_witness :
    (defaultPhysics.sphereVsSphere ball1 pin1).2 = true ∧
      (defaultPhysics.sphereVsSphere ball1 pin1).1.velocity ≠ ball1.velocity ∧
      (defaultPhysics.sphereVsCylinder ball1 cyl1).2 = true ∧
      (defaultPhysics.sphereVsCylinder ball1 cyl1).1.position ≠ ball1.position ∧
      (defaultPhysics.sphereVsBox ballB box1).2 = true ∧
      (defaultPhysics.sphereVsBox ballB box1).1.velocity ≠ ballB.velocity := by
  have hs1 : sphereDist ball1 pin1 < ball1.radius + pin1.radius := by
    rw [dist_ball1]; norm_num [ball1, pin1]
  have hs2 : sphereDist ball1 pin1 > 0 := by rw [dist_ball1]; norm_num
  have hs3 : 0 < dot3 ball1.velocity (sphereNormal ball1 pin1) := by
    rw [normal_ball1]; norm_num [dot3, ball1]
  have hc1 : cylinderDist ball1 cyl1 < ball1.radius + cyl1.radius := by
    rw [cdist_ball1]; norm_num [ball1, cyl1]
  have hc2 : withinHeight ball1 cyl1 := by
    constructor <;> norm_num [ball1, cyl1]
  have hc3 : cylinderDist ball1 cyl1 > 0 := by rw [cdist_ball1]; norm_num
  have hc4 : 0 < dot3 ball1.velocity (cylinderNormal ball1 cyl1) := by
    rw [cnormal_ball1]; norm_num [dot3, ball1]
  have hb1 : boxDist ballB box1 < ballB.radius := by
    rw [bdist_ballB]; norm_num [ballB]
  have hb2 : boxDist ballB box1 > 0 := by rw [bdist_ballB]; norm_num
  have hb3 : 0 < dot3 ballB.velocity (boxNormal ballB box1) := by
    rw [bnormal_ballB]; norm_num [dot3, ballB]
  have he : (0:ℝ) < defaultPhysics.restitution := by norm_num [defaultPhysics]
  exact ⟨(C10_thm.1 defaultPhysics ball1 pin1 hs1 hs2 hs3 he).1,
    (C10_thm.1 defaultPhysics ball1 pin1 hs1 hs2 hs3 he).2.2,
    (C10_thm.2.1 defaultPhysics ball1 cyl1 hc1 hc2 hc3 hc4 he).1,
    (C10_thm.2.1 defaultPhysics ball1 cyl1 hc1 hc2 hc3 hc4 he).2.1,
    (C10_thm.2.2 defaultPhysics ballB box1 hb1 hb2 hb3 he).1,
    (C10_thm.2.2 defaultPhysics ballB box1 hb1 hb2 hb3 he).2.2⟩


/-- C1 witness: the amended reflection law applied at concrete collisions with
each of the three resolvers, plus one concrete tangential instance. -/
theorem C1_witness :
    dot3 (defaultPhysics.sphereVsSphere ball1 pin1).1.velocity (sphereNormal ball1 pin1)
        = (1 - 2 * defaultPhysics.restitution) * dot3 ball1.velocity (sphereNormal ball1 pin1) ∧
      dot3 (defaultPhysics.sphereVsCylinder ball1 cyl1).1.velocity (cylinderNormal ball1 cyl1)
        = (1 - 2 * defaultPhysics.restitution) * dot3 ball1.velocity (cylinderNormal ball1 cyl1) ∧
      dot3 (defaultPhysics.sphereVsBox ballB box1).1.velocity (boxNormal ballB box1)
        = (1 - 2 * defaultPhysics.restitution) * dot3 ballB.velocity (boxNormal ballB box1) ∧
      dot3 ⟨0, 0, 1⟩ (defaultPhysics.sphereVsSphere ball1 pin1).1.velocity
        = dot3 ⟨0, 0, 1⟩ ball1.velocity := by
  have hs1 : sphereDist ball1 pin1 < ball1.radius + pin1.radius := by
    rw [dist_ball1]; norm_num [ball1, pin1]
  have hs2 : sphereDist ball1 pin1 > 0 := by rw [dist_ball1]; norm_num
  have hc1 : cylinderDist ball1 cyl1 < ball1.radius + cyl1.radius := by
    rw [cdist_ball1]; norm_num [ball1, cyl1]
  have hc2 : withinHeight ball1 cyl1 := by
    constructor <;> norm_num [ball1, cyl1]
  have hc3 : cylinderDist ball1 cyl1 > 0 := by rw [cdist_ball1]; norm_num
  have hb1 : boxDist ballB box1 < ballB.radius := by
    rw [bdist_ballB]; norm_num [ballB]
  have hb2 : boxDist ballB box1 > 0 := by rw [bdist_ballB]; norm_num
  have ht : dot3 ⟨0, 0, 1⟩ (sphereNormal ball1 pin1) = 0 := by
    rw [normal_ball1]; norm_num [dot3]
  exact ⟨(C1_thm.1 defaultPhysics ball1 pin1 hs1 hs2).1,
    (C1_thm.2.1 defaultPhysics ball1 cyl1 hc1 hc2 hc3).1,
    (C1_thm.2.2 defaultPhysics ballB box1 hb1 hb2).1,
    (C1_thm.1 defaultPhysics ball1 pin1 hs1 hs2).2 ⟨0, 0, 1⟩ ht⟩


/-- C7 amended: after integration and collision resolution the random
perturbation is added to the horizontal x velocity exactly when the
post-collision body has abs vx above 0.1 or abs vy above 0.1: the vertical
component participates in the gate, so it is not a horizontal-speed test. -/
theorem C7_thm (ph : Physics) (statics : List StaticBody) (dt rand : ℝ) (b : Body)
    (h : b.isStatic = false) :
    ph.updateBody statics dt rand b
        = perturb rand (resolveStatics ph statics (integrateBody ph (min dt (1 / 60)) b)) ∧
      ∀ c : Body,
        ((|c.velocity.x| > 1 / 10 ∨ |c.velocity.y| > 1 / 10) →
          perturb rand c =
            { c with velocity := ⟨c.velocity.x + (rand - 1 / 2) * (1 / 10),
                c.velocity.y, c.velocity.z⟩ }) ∧
        (¬(|c.velocity.x| > 1 / 10 ∨ |c.velocity.y| > 1 / 10) → perturb rand c = c) := by
  refine ⟨?_, fun c => ⟨fun hc => ?_, fun hc => ?_⟩⟩
  · simp only [Physics.updateBody, h]
    rfl
  · simp only [perturb]
    rw [if_pos hc]
  · simp only [perturb]
    rw [if_neg hc]



/-- C7 counterexample: a body whose horizontal velocity is exactly zero after
integration and collisions (it only fell) still receives the perturbation,
because its vertical speed exceeds the threshold; the claim that bodies at or
below the horizontal-speed threshold receive no perturbation is false. -/
theorem C7_cex :
    (resolveStatics defaultPhysics []
        (integrateBody defaultPhysics (min (1 / 60) (1 / 60)) fallBody)).velocity.x = 0 ∧
      (resolveStatics defaultPhysics []
        (integrateBody defaultPhysics (min (1 / 60) (1 / 60)) fallBody)).velocity.z = 0 ∧
      (defaultPhysics.updateBody [] (1 / 60) 1 fallBody).velocity.x = 1 / 20 ∧
      (1 / 20 : ℝ) ≠ 0 := by
  have hmid : resolveStatics defaultPhysics []
      (integrateBody defaultPhysics (min (1 / 60) (1 / 60)) fallBody)
        = integrateBody defaultPhysics (1 / 60) fallBody := by
    rw [min_self]
    rfl
  refine ⟨?_, ?_, ?_, by norm_num⟩
  · rw [hmid]
    norm_num [integrateBody, fallBody, defaultPhysics]
  · rw [hmid]
    norm_num [integrateBody, fallBody, defaultPhysics]
  · simp only [Physics.updateBody, fallBody]
    norm_num [resolveStatics, integrateBody, perturb, defaultPhysics, fallBody]
    rw [if_pos]
    rw [abs_of_nonneg (by norm_num : (0:ℝ) ≤ 1 / 4)]
    norm_num


/-- C7 witness: the amended perturbation description applied at concrete
bodies, covering both gate outcomes. -/
theorem C7_witness :
    defaultPhysics.updateBody [] (1 / 60) 1 fallBody
        = perturb 1 (resolveStatics defaultPhysics []
            (integrateBody defaultPhysics (min (1 / 60) (1 / 60)) fallBody)) ∧
      perturb 1 ball1 =
        { ball1 with velocity := ⟨ball1.velocity.x + (1 - 1 / 2) * (1 / 10),
            ball1.velocity.y, ball1.velocity.z⟩ } ∧
      perturb 1 fallBody = fallBody := by
  refine ⟨(C7_thm defaultPhysics [] (1 / 60) 1 fallBody rfl).1, ?_, ?_⟩
  · exact ((C7_thm defaultPhysics [] (1 / 60) 1 ball1 rfl).2 ball1).1
      (Or.inl (by norm_num [ball1]))
  · exact ((C7_thm defaultPhysics [] (1 / 60) 1 fallBody rfl).2 fallBody).2
      (by norm_num [fallBody])



lemma mkSlot_minX (i : ℕ) : (mkSlot i).minX = -3 + i * (6 / 7) := by
  simp only [mkSlot, slotWidth, machineWidth, numSlots]
  push_cast
  ring

lemma mkSlot_maxX (i : ℕ) : (mkSlot i).maxX = -3 + i * (6 / 7) + 6 / 7 := by
  simp only [mkSlot, slotWidth, machineWidth, numSlots]
  push_cast
  ring

lemma mkSlot_mono (a i : ℕ) (h : a < i) : (mkSlot a).maxX ≤ (mkSlot i).minX := by
  rw [mkSlot_maxX, mkSlot_minX]
  have hai : (a : ℝ) + 1 ≤ i := by exact_mod_cast h
  nlinarith

lemma halfOpen_unique (x : ℝ) (i j : ℕ) (hi : slotHalfOpenMem (mkSlot i) x)
    (hj : slotHalfOpenMem (mkSlot j) x) : i = j := by
  by_contra hne
  rcases Nat.lt_or_ge i j with h | h
  · linarith [mkSlot_mono i j h, hi.2, hj.1]
  · have h' : j < i := by omega
    linarith [mkSlot_mono j i h', hj.2, hi.1]

lemma halfOpen_exists (x : ℝ) (h1 : -3 ≤ x) (h2 : x < 3) :
    ∃ i : ℕ, i < 7 ∧ slotHalfOpenMem (mkSlot i) x := by
  have ht0 : (0:ℝ) ≤ (x + 3) * (7 / 6) := by nlinarith
  have ht7 : (x + 3) * (7 / 6) < 7 := by nlinarith
  refine ⟨⌊(x + 3) * (7 / 6)⌋₊, (Nat.floor_lt ht0).mpr ht7, ?_, ?_⟩
  · rw [mkSlot_minX]
    have hfl : (⌊(x + 3) * (7 / 6)⌋₊ : ℝ) ≤ (x + 3) * (7 / 6) := Nat.floor_le ht0
    nlinarith
  · rw [mkSlot_maxX]
    have hfl : (x + 3) * (7 / 6) < ⌊(x + 3) * (7 / 6)⌋₊ + 1 := Nat.lt_floor_add_one _
    nlinarith



lemma firstHit_append (x : ℝ) (l1 l2 : List Slot) (s : Slot)
    (hskip : ∀ t ∈ l1, ¬(x ≥ t.minX ∧ x ≤ t.maxX))
    (hs : x ≥ s.minX ∧ x ≤ s.maxX) :
    firstHit x (l1 ++ s :: l2) = some s := by
  induction l1 with
  | nil =>
      simp only [List.nil_append, firstHit]
      rw [if_pos hs]
  | cons a l ih =>
      simp only [List.cons_append, firstHit]
      rw [if_neg (hskip a (List.mem_cons_self a l))]
      exact ih fun t ht => hskip t (List.mem_cons_of_mem a ht)

lemma slots_split (i : ℕ) (hi : i < 7) :
    slots = ((List.range i).map mkSlot) ++ mkSlot i ::
      ((List.range (6 - i)).map fun j => mkSlot (i + (j + 1))) := by
  rw [slots, numSlots, show 7 = i + (7 - i) by omega, List.range_add,
    show 7 - i = (6 - i) + 1 by omega, List.range_succ_eq_map]
  simp only [List.map_append, List.map_map, List.map_cons, Function.comp, Nat.add_zero,
    Nat.succ_eq_add_one]
  have hfun : (mkSlot ∘ (fun x => i + x) ∘ Nat.succ) = fun j => mkSlot (i + (j + 1)) := by
    funext j
    simp [Function.comp, Nat.succ_eq_add_one]
  rw [hfun]



lemma firstHit_slots (x : ℝ) (i : ℕ) (hi : i < 7)
    (hlo : (mkSlot i).minX < x) (hhi : x ≤ (mkSlot i).maxX) :
    firstHit x slots = some (mkSlot i) := by
  rw [slots_split i hi]
  apply firstHit_append
  · intro t ht
    rcases List.mem_map.1 ht with ⟨j, hj, rfl⟩
    have hji : j < i := List.mem_range.1 hj
    rintro ⟨-, h2⟩
    linarith [mkSlot_mono j i hji, h2, hlo]
  · exact ⟨le_of_lt hlo, hhi⟩



lemma firstHit_left_edge : firstHit (-3 : ℝ) slots = some (mkSlot 0) := by
  rw [slots_split 0 (by norm_num)]
  apply firstHit_append
  · intro t ht
    simp at ht
  · constructor
    · rw [mkSlot_minX]; norm_num
    · rw [mkSlot_maxX]; norm_num


/-- C2 amended: the half-open ranges of the seven slots partition the span
[-3, 3): every x there lies in exactly one of them; the scoring scan however
tests the closed range with first-match, so it returns slot i for every x with
minX i < x <= maxX i (hence at a shared boundary the lower slot, not the slot
given by half-open membership), and returns slot 0 at x = -3. -/
theorem C2_thm :
    (∀ x : ℝ, -3 ≤ x → x < 3 → ∃! i : ℕ, i < 7 ∧ slotHalfOpenMem (mkSlot i) x) ∧
      (∀ (x : ℝ) (i : ℕ), i < 7 → (mkSlot i).minX < x → x ≤ (mkSlot i).maxX →
        firstHit x slots = some (mkSlot i)) ∧
      firstHit (-3 : ℝ) slots = some (mkSlot 0) := by
  refine ⟨fun x h1 h2 => ?_, fun x i hi hlo hhi => firstHit_slots x i hi hlo hhi,
    firstHit_left_edge⟩
  rcases halfOpen_exists x h1 h2 with ⟨i, hi7, hmem⟩
  exact ⟨i, ⟨hi7, hmem⟩, fun j hj => halfOpen_unique x j i hj.2 hmem⟩


/-- C2 witness: the partition applied at x = 0 and the scoring scan applied at
the boundary x = -15/7. -/
theorem C2_witness :
    (∃! i : ℕ, i < 7 ∧ slotHalfOpenMem (mkSlot i) 0) ∧
      firstHit (-(15 / 7) : ℝ) slots = some (mkSlot 0) :=
  ⟨C2_thm.1 0 (by norm_num) (by norm_num),
   C2_thm.2.1 (-(15 / 7)) 0 (by norm_num) (by rw [mkSlot_minX]; norm_num)
     (by rw [mkSlot_maxX]; norm_num)⟩

lemma scoreCheck_unscored (x y : ℝ) :
    (scoreCheck ⟨false, x, y⟩).2
      = if y < 1 / 2 then (firstHit x slots).map Slot.points else none := by
  by_cases hy : y < 1 / 2
  · simp only [scoreCheck]
    rw [if_pos (⟨trivial, hy⟩ : True ∧ y < 1 / 2), if_pos hy]
    rcases hfh : firstHit x slots with _ | s <;> simp
  · simp only [scoreCheck]
    rw [if_neg (fun hc => hy hc.2), if_neg hy]


/-- C2 counterexample: at the shared boundary x = -15/7 the scoring scan
returns slot 0 (10 points) while half-open membership holds for slot 1
(50 points) and fails for slot 0, so scoring is not determined by the
half-open ranges. -/
theorem C2_cex :
    firstHit (-(15 / 7) : ℝ) slots = some (mkSlot 0) ∧
      (scoreCheck ⟨false, -(15 / 7), 0⟩).2 = some 10 ∧
      slotHalfOpenMem (mkSlot 1) (-(15 / 7)) ∧
      ¬ slotHalfOpenMem (mkSlot 0) (-(15 / 7)) ∧
      (mkSlot 0).points = 10 ∧ (mkSlot 1).points = 50 := by
  have hfh : firstHit (-(15 / 7) : ℝ) slots = some (mkSlot 0) :=
    firstHit_slots (-(15 / 7)) 0 (by norm_num) (by rw [mkSlot_minX]; norm_num)
      (by rw [mkSlot_maxX]; norm_num)
  refine ⟨hfh, ?_, ?_, ?_, ?_, ?_⟩
  · rw [scoreCheck_unscored, if_pos (by norm_num : (0:ℝ) < 1 / 2), hfh]
    simp [mkSlot, pointValues]
  · constructor
    · rw [mkSlot_minX]; norm_num
    · rw [mkSlot_maxX]; norm_num
  · rintro ⟨-, h2⟩
    rw [mkSlot_maxX] at h2
    norm_num at h2
  · simp [mkSlot, pointValues]
  · simp [mkSlot, pointValues]

lemma scoreCheck_of_scored (b : BallState) (h : b.scored = true) :
    scoreCheck b = (b, none) := by
  simp only [scoreCheck]
  rw [if_neg]
  rintro ⟨h1, -⟩
  rw [h] at h1
  exact absurd h1 (by decide)

lemma scoreCheck_some_scored (b : BallState) (n : ℕ) (h : (scoreCheck b).2 = some n) :
    (scoreCheck b).1.scored = true := by
  simp only [scoreCheck] at h ⊢
  split_ifs at h ⊢ with hc
  · rcases hfh : firstHit b.posX slots with _ | s
    · rw [hfh] at h
      simp at h
    · simp

lemma runScoreChecks_of_scored (frames : List (ℝ × ℝ)) :
    runScoreChecks true frames = (true, []) := by
  induction frames with
  | nil => rfl
  | cons f rest ih =>
      obtain ⟨x, y⟩ := f
      simp only [runScoreChecks]
      rw [scoreCheck_of_scored ⟨true, x, y⟩ rfl]
      simp [ih]

lemma runScoreChecks_len (scored : Bool) (frames : List (ℝ × ℝ)) :
    (runScoreChecks scored frames).2.length ≤ 1 := by
  induction frames generalizing scored with
  | nil => simp [runScoreChecks]
  | cons f rest ih =>
      obtain ⟨x, y⟩ := f
      simp only [runScoreChecks]
      rcases h2 : (scoreCheck ⟨scored, x, y⟩).2 with _ | n
      · simpa using ih _
      · rw [scoreCheck_some_scored ⟨scored, x, y⟩ n h2, runScoreChecks_of_scored]
        simp


/-- C3: over any sequence of per-frame checks a ball emits at most one score
event; once scored, later frames change nothing and emit nothing; and a single
check on an unscored ball emits exactly the points of the first matching slot
(or nothing above the altitude threshold). -/
theorem C3_thm :
    (∀ frames : List (ℝ × ℝ), (runScoreChecks false frames).2.length ≤ 1) ∧
      (∀ frames : List (ℝ × ℝ), runScoreChecks true frames = (true, [])) ∧
      (∀ x y : ℝ, (scoreCheck ⟨false, x, y⟩).2
        = if y < 1 / 2 then (firstHit x slots).map Slot.points else none) :=
  ⟨fun frames => runScoreChecks_len false frames,
   fun frames => runScoreChecks_of_scored frames,
   fun x y => scoreCheck_unscored x y⟩



lemma boxDist_inside (ball : Body) (box : BoxObstacle)
    (hx1 : box.min.x ≤ ball.position.x) (hx2 : ball.position.x ≤ box.max.x)
    (hy1 : box.min.y ≤ ball.position.y) (hy2 : ball.position.y ≤ box.max.y)
    (hz1 : box.min.z ≤ ball.position.z) (hz2 : ball.position.z ≤ box.max.z) :
    boxDist ball box = 0 := by
  rw [boxDist, closestX, closestY, closestZ, min_eq_left hx2, max_eq_right hx1,
    min_eq_left hy2, max_eq_right hy1, min_eq_left hz2, max_eq_right hz1]
  simp


/-- C9 amended: with the ball center inside a box, the resolver raises the
y position by exactly the radius, sets the vertical velocity to
restitution * abs(vy) - which is nonnegative but zero when vy was zero, not
always positive - changes nothing else, and fires no callback. -/
theorem C9_thm (ph : Physics) (ball : Body) (box : BoxObstacle)
    (hx1 : box.min.x ≤ ball.position.x) (hx2 : ball.position.x ≤ box.max.x)
    (hy1 : box.min.y ≤ ball.position.y) (hy2 : ball.position.y ≤ box.max.y)
    (hz1 : box.min.z ≤ ball.position.z) (hz2 : ball.position.z ≤ box.max.z) :
    ph.sphereVsBox ball box =
      ({ ball with
          position := ⟨ball.position.x, ball.position.y + ball.radius, ball.position.z⟩,
          velocity := ⟨ball.velocity.x, |ball.velocity.y| * ph.restitution,
            ball.velocity.z⟩ }, false) :=
  sphereVsBox_contained ph ball box (boxDist_inside ball box hx1 hx2 hy1 hy2 hz1 hz2)




/-- C9 counterexample: a ball at rest inside the box gets vertical velocity
restitution * abs 0 = 0 after containment recovery, which is not positive, so
the claim that the vertical velocity is set to a positive value is false. -/
theorem C9_cex :
    boxDist ballZ box1 = 0 ∧
      (defaultPhysics.sphereVsBox ballZ box1).1.velocity.y = 0 ∧
      ¬ (0 < (defaultPhysics.sphereVsBox ballZ box1).1.velocity.y) := by
  have hd : boxDist ballZ box1 = 0 :=
    boxDist_inside ballZ box1 (by norm_num [ballZ, box1]) (by norm_num [ballZ, box1])
      (by norm_num [ballZ, box1]) (by norm_num [ballZ, box1]) (by norm_num [ballZ, box1])
      (by norm_num [ballZ, box1])
  have he := sphereVsBox_contained defaultPhysics ballZ box1 hd
  refine ⟨hd, ?_, ?_⟩
  · rw [he]
    norm_num [ballZ]
  · rw [he]
    norm_num [ballZ]


/-- C9 witness: the containment recovery theorem applied to a concrete moving
ball inside the floor box. -/
theorem C9_witness :
    defaultPhysics.sphereVsBox ballW box1 =
      ({ ballW with
          position := ⟨ballW.position.x, ballW.position.y + ballW.radius, ballW.position.z⟩,
          velocity := ⟨ballW.velocity.x, |ballW.velocity.y| * defaultPhysics.restitution,
            ballW.velocity.z⟩ }, false) :=
  C9_thm defaultPhysics ballW box1 (by norm_num [ballW, box1]) (by norm_num [ballW, box1])
    (by norm_num [ballW, box1]) (by norm_num [ballW, box1]) (by norm_num [ballW, box1])
    (by norm_num [ballW, box1])


end Pachinko
